import Mathlib

/-!
Shallow embedding of the JACVS certificate-verification core
(src/app.py): text normalization, the multi-page combining loop, the
regex-based field extraction, and the module-level verification logic
(lines 233-268).  Strings are modelled as lists of characters; Python
floats (OCR confidences, their means) are modelled as rationals; the
embedding restricts Python's Unicode-aware case folding and whitespace
classes to their ASCII fragments.
-/

abbrev Str := List Char

/-- ASCII whitespace, the fragment of Python's whitespace class used by
str.strip and the regex class backslash-s. -/
def isPySpace (c : Char) : Bool :=
  c = ' ' || c = '\t' || c = '\n' || c = '\r' || c = '\x0b' || c = '\x0c'

/-- A word character in the sense of the regex class backslash-w
(ASCII fragment): alphanumeric or underscore. -/
def isWordChar (c : Char) : Bool := c.isAlphanum || c = '_'

/-- Python str.strip: drop leading and trailing whitespace. -/
def pyStrip (s : Str) : Str :=
  ((s.dropWhile isPySpace).reverse.dropWhile isPySpace).reverse

/-- src/app.py line 104, normalize_text:
re.sub of the class complement-of-word-chars by the empty string, applied
to text.lower().strip(). -/
def normalize_text (s : Str) : Str :=
  (pyStrip (s.map Char.toLower)).filter isWordChar

/-- The spec's wording of normalization: lower-case, then drop every
character that is not alphanumeric. -/
def specNormalize (s : Str) : Str :=
  (s.map Char.toLower).filter Char.isAlphanum

/-- Python int() applied to a (rational-modelled) float: truncation
toward zero, computed on the reduced numerator and denominator. -/
def pyInt (q : ℚ) : Int :=
  if 0 ≤ q.num then ((q.num.toNat / q.den : ℕ) : Int)
  else -((q.num.natAbs / q.den : ℕ) : Int)

/-- The floor of a rational, computed on the reduced numerator and
denominator. -/
def ratFloor (q : ℚ) : Int :=
  if 0 ≤ q.num then ((q.num.toNat / q.den : ℕ) : Int)
  else -(((q.num.natAbs + q.den - 1) / q.den : ℕ) : Int)

/-- Python round() applied to a (rational-modelled) float: round to the
nearest integer, ties to the even integer.  The fractional part is
compared with one half on integers: frac = rem / den. -/
def pyRound (q : ℚ) : Int :=
  let f := ratFloor q
  let rem : Int := q.num - f * (q.den : Int)
  if 2 * rem < (q.den : Int) then f
  else if (q.den : Int) < 2 * rem then f + 1
  else if f % 2 = 0 then f else f + 1

/-- One value of the reference mapping: the normalized roll number and
certificate id stored for a normalized name (src/app.py lines 135-141). -/
structure RefRecord where
  roll_no : Str
  cert_id : Str
deriving DecidableEq

/-- The combined per-document record built by the page-combining loop
(src/app.py lines 196-207). -/
structure CombinedRecord where
  name : Str
  roll_no : Str
  cert_id : Str
  full_text : Str
deriving DecidableEq

/-- The verdict fields produced by the verification logic
(src/app.py lines 233-280). -/
structure VerificationResult where
  status : String
  confidence_score : Int
  recommendation : String
  anomalies : List String
deriving DecidableEq

/-- Python dict lookup on the reference mapping, modelled on an
association list with unique keys. -/
def lookupRef (d : List (Str × RefRecord)) (k : Str) : Option RefRecord :=
  (d.find? (fun p => p.1 == k)).map Prod.snd

/-- src/app.py line 263: the low-OCR-confidence anomaly message. -/
def lowConfMsg : String := "Low OCR confidence - blurry image? Improve scan quality."

/-- src/app.py lines 233-259: initial values and the reference-matching
branch, before the two global confidence overrides. -/
def matchStage (rec : CombinedRecord) (records_dict : List (Str × RefRecord))
    (avg_confidence : ℚ) : VerificationResult :=
  let name_norm := normalize_text rec.name
  let roll_norm := normalize_text rec.roll_no
  let cert_norm := normalize_text rec.cert_id
  let confidence_score := pyInt avg_confidence
  if records_dict = [] then
    ⟨ "OCR Processed", confidence_score, "Proceed with verification.", []⟩
  else
    match lookupRef records_dict name_norm with
    | some db =>
      if roll_norm ≠ db.roll_no ∨ cert_norm ≠ db.cert_id then
        ⟨ "Caution", min confidence_score 60, "Manual review recommended.",
          ["Mismatch in Roll No or Certificate ID"]⟩
      else
        ⟨ "Valid", max confidence_score 85, "Proceed with verification.", []⟩
    | none =>
      ⟨ "Forged", min confidence_score 30, "Document appears invalid.",
        ["Name not found in records"]⟩

/-- src/app.py lines 261-264: when the average OCR confidence is below
70, append the low-confidence anomaly and cap the confidence at 30. -/
def applyCap (v : VerificationResult) (avg_confidence : ℚ) : VerificationResult :=
  if avg_confidence < 70 then
    { v with anomalies := v.anomalies ++ [lowConfMsg],
             confidence_score := min v.confidence_score 30 }
  else v

/-- src/app.py lines 266-268: when no anomalies were collected and the
average OCR confidence is above 80, set the confidence to 95. -/
def applyBoost (v : VerificationResult) (avg_confidence : ℚ) : VerificationResult :=
  if v.anomalies = [] ∧ 80 < avg_confidence then
    { v with confidence_score := 95 }
  else v

/-- src/app.py lines 261-268: the cap then the boost, in source order,
after the match branch. -/
def applyOverrides (v : VerificationResult) (avg_confidence : ℚ) : VerificationResult :=
  applyBoost (applyCap v avg_confidence) avg_confidence

/-- The full verification logic of src/app.py lines 233-268. -/
def verify (rec : CombinedRecord) (records_dict : List (Str × RefRecord))
    (avg_confidence : ℚ) : VerificationResult :=
  applyOverrides (matchStage rec records_dict avg_confidence) avg_confidence

/-- Reference record used by the spec's decision-table scenarios. -/
def db0 : RefRecord := ⟨ "21cs01".toList, "jh21cs01".toList⟩

/-- One-entry reference mapping used by the spec's decision-table
scenarios. -/
def dict0 : List (Str × RefRecord) := [("johndoe".toList, db0)]

/-- Extracted record agreeing with db0. -/
def recMatch : CombinedRecord :=
  ⟨ "johndoe".toList, "21cs01".toList, "jh21cs01".toList, []⟩

/-- Extracted record whose certificate id disagrees with db0. -/
def recMismatch : CombinedRecord :=
  ⟨ "johndoe".toList, "21cs01".toList, "jh21cs99".toList, []⟩

/-- Extracted record whose name is not a key of dict0. -/
def recJane : CombinedRecord :=
  ⟨ "janedoe".toList, "21cs01".toList, "jh21cs01".toList, []⟩

/-- Extracted record with every field empty. -/
def recNoName : CombinedRecord := ⟨ [], [], [], []⟩

/-- Per-page extracted fields (src/app.py lines 63-79): absence of a
field is the empty string. -/
structure ExtractedFields where
  name : Str
  roll_no : Str
  cert_id : Str
deriving DecidableEq

/-- One page's OCR result as consumed by the combining loop: the
extracted fields and the page's full recognized text. -/
structure OcrPage where
  extracted : ExtractedFields
  full_text : Str
deriving DecidableEq

/-- src/app.py line 205: a field slot is overwritten only when the page
value is non-empty and the slot is still empty. -/
def pickFirst (a v : Str) : Str := if v ≠ [] ∧ a = [] then v else a

/-- One iteration of the combining loop (src/app.py lines 202-207). -/
def combineStep (acc : CombinedRecord) (p : OcrPage) : CombinedRecord :=
  { name := pickFirst acc.name p.extracted.name
    roll_no := pickFirst acc.roll_no p.extracted.roll_no
    cert_id := pickFirst acc.cert_id p.extracted.cert_id
    full_text := acc.full_text ++ p.full_text ++ ['\n'] }

/-- src/app.py lines 196-207: the combining loop folded over the pages
in document order, starting from the all-empty record. -/
def combinePages (pages : List OcrPage) : CombinedRecord :=
  pages.foldl combineStep ⟨ [], [], [], []⟩

/-- The first non-empty string of a list, or the empty string when all
entries are empty. -/
def firstNonEmpty (l : List Str) : Str :=
  (l.find? (fun v => !v.isEmpty)).getD []

/-- Case-insensitive character comparison (ASCII case folding, the
fragment of re.IGNORECASE exercised by the label literals). -/
def charCI (a b : Char) : Bool := a.toLower = b.toLower

/-- Does the text begin with the given literal, compared
case-insensitively? -/
def startsWithCI : Str → Str → Bool
  | [], _ => true
  | _ :: _, [] => false
  | p :: ps, c :: cs => charCI p c && startsWithCI ps cs

/-- The character class of the name capture group: ASCII letters and
whitespace. -/
def isNameChar (c : Char) : Bool := c.isAlpha || isPySpace c

/-- The character class of the roll-number and certificate-id capture
groups under IGNORECASE: ASCII alphanumerics and the slash. -/
def isIdChar (c : Char) : Bool := c.isAlphanum || c = '/'

/-- A colon or a whitespace character: the label-separator class. -/
def isColonSpace (c : Char) : Bool := c = ':' || isPySpace c

/-- The lookahead terminating the lazy name capture: end of text, a
newline, or the next label (Roll or Certificate, case-insensitive). -/
def nameStop (s : Str) : Bool :=
  match s with
  | [] => true
  | c :: _ => c = '\n' || startsWithCI "roll".toList s || startsWithCI "certificate".toList s

/-- Lazy capture, continuation: stop at the first position satisfying
the lookahead, otherwise consume one more class character. -/
def captureLazyGo (inClass : Char → Bool) (stop : Str → Bool) : Str → Str → Option Str
  | acc, [] => if stop [] then some acc.reverse else none
  | acc, c :: rest =>
    if stop (c :: rest) then some acc.reverse
    else if inClass c then captureLazyGo inClass stop (c :: acc) rest
    else none

/-- The lazy one-or-more capture of the name pattern: at least one class
character, then the shortest extension whose end satisfies the
lookahead. -/
def captureLazy (inClass : Char → Bool) (stop : Str → Bool) : Str → Option Str
  | [] => none
  | c :: rest => if inClass c then captureLazyGo inClass stop [c] rest else none

/-- The tail of the name pattern after the greedy separator run: the
lazy capture with its lookahead. -/
def nameTailAt (s : Str) : Option Str := captureLazy isNameChar nameStop s

/-- Backtracking over the greedy separator run of the name pattern: try
consuming j separator characters, longest first. -/
def nameTailFrom : Nat → Str → Option Str
  | 0, s => nameTailAt s
  | j+1, s =>
    match nameTailAt (s.drop (j+1)) with
    | some g => some g
    | none => nameTailFrom j s

/-- The localized-script synonym of the Name label exactly as the bytes
of src/app.py line 70 decode: nine characters of mojibake. -/
def nameLabelAlt : Str := "‡§®‡§æ‡§Æ".toList

/-- Try the full name pattern of src/app.py line 70 at one position:
either Name label, the greedy separator run, then the lazy capture.  The
two label alternatives differ in their first character, so the ordered
if-chain is equivalent to the regex alternation with backtracking. -/
def matchNameAt (s : Str) : Option Str :=
  if startsWithCI "name".toList s then
    let s1 := s.drop 4
    nameTailFrom (s1.takeWhile isColonSpace).length s1
  else if startsWithCI nameLabelAlt s then
    let s1 := s.drop nameLabelAlt.length
    nameTailFrom (s1.takeWhile isColonSpace).length s1
  else none

/-- re.search for the name pattern: try every position left to right. -/
def searchName : Str → Option Str
  | [] => none
  | c :: rest =>
    match matchNameAt (c :: rest) with
    | some g => some g
    | none => searchName rest

/-- A separator run then the greedy one-or-more id capture.  The
separator and capture classes are disjoint, so the greedy separator run
needs no backtracking. -/
def sepThenIdCapture (s : Str) : Option Str :=
  let t := (s.dropWhile isColonSpace).takeWhile isIdChar
  if t = [] then none else some t

/-- The greedy one-or-more id capture with no preceding separator run,
as in the first two certificate-pattern alternatives. -/
def idCapture (s : Str) : Option Str :=
  let t := s.takeWhile isIdChar
  if t = [] then none else some t

/-- Try the roll pattern of src/app.py line 74 at one position: Roll
label, optional whitespace, Number or No, a separator run, then the
capture.  Number and No diverge at their second character, so at most
one alternative can match and the ordered if-chain is equivalent to the
regex alternation with backtracking. -/
def matchRollAt (s : Str) : Option Str :=
  if startsWithCI "roll".toList s then
    let s1 := (s.drop 4).dropWhile isPySpace
    if startsWithCI "number".toList s1 then sepThenIdCapture (s1.drop 6)
    else if startsWithCI "no".toList s1 then sepThenIdCapture (s1.drop 2)
    else none
  else none

/-- re.search for the roll pattern. -/
def searchRoll : Str → Option Str
  | [] => none
  | c :: rest =>
    match matchRollAt (c :: rest) with
    | some g => some g
    | none => searchRoll rest

/-- First certificate-pattern alternative: Certificate label, optional
whitespace, ID or No, then the capture with no separator run. -/
def certAltCertificate (s : Str) : Option Str :=
  if startsWithCI "certificate".toList s then
    let s1 := (s.drop 11).dropWhile isPySpace
    if startsWithCI "id".toList s1 then idCapture (s1.drop 2)
    else if startsWithCI "no".toList s1 then idCapture (s1.drop 2)
    else none
  else none

/-- Second certificate-pattern alternative: Cert label, optional
whitespace, ID, then the capture with no separator run. -/
def certAltCert (s : Str) : Option Str :=
  if startsWithCI "cert".toList s then
    let s1 := (s.drop 4).dropWhile isPySpace
    if startsWithCI "id".toList s1 then idCapture (s1.drop 2) else none
  else none

/-- Third certificate-pattern alternative: bare ID label, a separator
run, then the capture. -/
def certAltId (s : Str) : Option Str :=
  if startsWithCI "id".toList s then sepThenIdCapture (s.drop 2)
  else none

/-- Try the certificate pattern of src/app.py line 78 at one position:
the three alternatives in their source order; on failure of one the
engine falls through to the next at the same position. -/
def matchCertAt (s : Str) : Option Str :=
  match certAltCertificate s with
  | some g => some g
  | none =>
    match certAltCert s with
    | some g => some g
    | none => certAltId s

/-- re.search for the certificate pattern. -/
def searchCert : Str → Option Str
  | [] => none
  | c :: rest =>
    match matchCertAt (c :: rest) with
    | some g => some g
    | none => searchCert rest

/-- src/app.py lines 63-79: the per-field extraction.  Each capture, if
any, is stripped; an unmatched field yields the empty string.  The
function is total: absence of a match is not an error. -/
def extract_fields (text : Str) : ExtractedFields :=
  { name := match searchName text with | some g => pyStrip g | none => []
    roll_no := match searchRoll text with | some g => pyStrip g | none => []
    cert_id := match searchCert text with | some g => pyStrip g | none => [] }

example :
    extract_fields "Name: John Doe\nRoll No: 21CS01\nCertificate ID: JH21CS01".toList =
      ⟨ "John Doe".toList, "21CS01".toList, "JH21CS01".toList⟩ := by decide

example : extract_fields "hello world".toList = ⟨ [], [], []⟩ := by decide

example : searchName "NAME   -  Bob\n".toList = none := by decide

example : searchName "Name: \nRoll".toList = some "Roll".toList := by decide

example : searchName "xx Name is Fred Roll".toList = some "is Fred ".toList := by decide

example : searchRoll "Roll November".toList = some "vember".toList := by decide

example : searchRoll "Roll  no : A1".toList = some "A1".toList := by decide

example : searchCert "Certificate No1234".toList = some "1234".toList := by decide

example : searchCert "Cert ID XYZ".toList = some "XYZ".toList := by decide

example : searchCert "CertID/77".toList = some "/77".toList := by decide

example : searchCert "certificate id".toList = none := by decide

example : searchCert "Ident 55".toList = some "ent".toList := by decide

example : (verify recMatch dict0 90).confidence_score = 95 := by decide
example : (verify recMatch [] 50).status = "OCR Processed" := by decide
example : (matchStage recMatch dict0 (mkRat 428 5)).confidence_score = 85 := by decide
example : pyRound (mkRat 428 5) = 86 := by decide
example : normalize_text "a_b".toList = "a_b".toList := by decide

/-! Helper lemmas shared by the claim theorems. -/

lemma matchStage_empty (rec : CombinedRecord) (avg : ℚ) :
    matchStage rec [] avg =
      ⟨ "OCR Processed", pyInt avg, "Proceed with verification.", []⟩ := by
  simp [matchStage]

lemma matchStage_found (rec : CombinedRecord) (dict : List (Str × RefRecord))
    (avg : ℚ) (db : RefRecord) (hd : dict ≠ [])
    (hl : lookupRef dict (normalize_text rec.name) = some db)
    (hr : normalize_text rec.roll_no = db.roll_no)
    (hc : normalize_text rec.cert_id = db.cert_id) :
    matchStage rec dict avg =
      ⟨ "Valid", max (pyInt avg) 85, "Proceed with verification.", []⟩ := by
  simp [matchStage, hd, hl, hr, hc]

lemma matchStage_mismatch (rec : CombinedRecord) (dict : List (Str × RefRecord))
    (avg : ℚ) (db : RefRecord) (hd : dict ≠ [])
    (hl : lookupRef dict (normalize_text rec.name) = some db)
    (hm : normalize_text rec.roll_no ≠ db.roll_no ∨ normalize_text rec.cert_id ≠ db.cert_id) :
    matchStage rec dict avg =
      ⟨ "Caution", min (pyInt avg) 60, "Manual review recommended.",
        ["Mismatch in Roll No or Certificate ID"]⟩ := by
  simp [matchStage, hd, hl, hm]

lemma matchStage_not_found (rec : CombinedRecord) (dict : List (Str × RefRecord))
    (avg : ℚ) (hd : dict ≠ [])
    (hl : lookupRef dict (normalize_text rec.name) = none) :
    matchStage rec dict avg =
      ⟨ "Forged", min (pyInt avg) 30, "Document appears invalid.",
        ["Name not found in records"]⟩ := by
  simp [matchStage, hd, hl]

lemma applyOverrides_low (v : VerificationResult) (avg : ℚ) (h : avg < 70) :
    applyOverrides v avg =
      { v with anomalies := v.anomalies ++ [lowConfMsg],
               confidence_score := min v.confidence_score 30 } := by
  have h80 : ¬(80 < avg) := by linarith
  simp [applyOverrides, applyCap, applyBoost, h, h80]

lemma applyOverrides_high (v : VerificationResult) (avg : ℚ) (h : ¬(avg < 70)) :
    applyOverrides v avg =
      if v.anomalies = [] ∧ 80 < avg then { v with confidence_score := 95 } else v := by
  simp [applyOverrides, applyCap, applyBoost, h]

lemma applyCap_status (v : VerificationResult) (avg : ℚ) :
    (applyCap v avg).status = v.status := by
  unfold applyCap; split <;> rfl

lemma applyBoost_status (v : VerificationResult) (avg : ℚ) :
    (applyBoost v avg).status = v.status := by
  unfold applyBoost; split <;> rfl

lemma applyOverrides_status (v : VerificationResult) (avg : ℚ) :
    (applyOverrides v avg).status = v.status := by
  unfold applyOverrides
  rw [applyBoost_status, applyCap_status]

lemma applyCap_mem (v : VerificationResult) (avg : ℚ) (m : String)
    (h : m ∈ v.anomalies) : m ∈ (applyCap v avg).anomalies := by
  unfold applyCap
  split
  · exact List.mem_append_left _ h
  · exact h

lemma applyBoost_mem (v : VerificationResult) (avg : ℚ) (m : String)
    (h : m ∈ v.anomalies) : m ∈ (applyBoost v avg).anomalies := by
  unfold applyBoost
  split <;> exact h

lemma applyOverrides_mem (v : VerificationResult) (avg : ℚ) (m : String)
    (h : m ∈ v.anomalies) : m ∈ (applyOverrides v avg).anomalies :=
  applyBoost_mem _ _ _ (applyCap_mem _ _ _ h)

lemma space_not_word (c : Char) (h : isPySpace c = true) : isWordChar c = false := by
  simp only [isPySpace, Bool.or_eq_true, decide_eq_true_eq] at h
  rcases h with ((((h | h) | h) | h) | h) | h <;> subst h <;> decide

lemma filter_dropWhile_space (l : Str) :
    (l.dropWhile isPySpace).filter isWordChar = l.filter isWordChar := by
  induction l with
  | nil => rfl
  | cons c t ih =>
    by_cases h : isPySpace c = true
    · rw [List.dropWhile_cons_of_pos h, ih, List.filter_cons_of_neg]
      simp [space_not_word c h]
    · rw [List.dropWhile_cons_of_neg h]

lemma filter_pyStrip (l : Str) :
    (pyStrip l).filter isWordChar = l.filter isWordChar := by
  unfold pyStrip
  rw [List.filter_reverse, filter_dropWhile_space, List.filter_reverse,
    filter_dropWhile_space, List.reverse_reverse]

lemma pickFirst_foldl (l : List Str) (a : Str) :
    l.foldl pickFirst a = if a = [] then firstNonEmpty l else a := by
  induction l generalizing a with
  | nil =>
    rcases eq_or_ne a [] with ha | ha
    · subst ha; simp [firstNonEmpty]
    · simp [firstNonEmpty, ha]
  | cons v t ih =>
    rw [List.foldl_cons, ih]
    rcases eq_or_ne a [] with ha | ha
    · subst ha
      rcases eq_or_ne v [] with hv | hv
      · subst hv
        simp [pickFirst, firstNonEmpty]
      · simp [pickFirst, hv, firstNonEmpty, List.find?_cons,
          List.isEmpty_iff, if_neg hv]
    · simp [pickFirst, ha]

lemma combine_foldl_fields (pages : List OcrPage) (acc : CombinedRecord) :
    (pages.foldl combineStep acc).name =
        (pages.map (fun p => p.extracted.name)).foldl pickFirst acc.name ∧
    (pages.foldl combineStep acc).roll_no =
        (pages.map (fun p => p.extracted.roll_no)).foldl pickFirst acc.roll_no ∧
    (pages.foldl combineStep acc).cert_id =
        (pages.map (fun p => p.extracted.cert_id)).foldl pickFirst acc.cert_id := by
  induction pages generalizing acc with
  | nil => exact ⟨rfl, rfl, rfl⟩
  | cons p t ih =>
    simpa [combineStep] using ih (combineStep acc p)

/-! Claim theorems. -/

/-- Claim C1, counterexample: with an empty reference mapping and
average confidence 50, the code returns status OCR Processed (not
Unmatched), recommendation Proceed with verification (not a
no-reference-data message), the low-confidence anomaly (not an empty
list), and confidence 30 (not round(50) = 50). -/
theorem verify_empty_mapping_cex :
    (verify recMatch [] 50).status = "OCR Processed" ∧
    (verify recMatch [] 50).recommendation = "Proceed with verification." ∧
    (verify recMatch [] 50).anomalies = [lowConfMsg] ∧
    (verify recMatch [] 50).confidence_score = 30 ∧
    ¬((verify recMatch [] 50).status = "Unmatched" ∧
      (verify recMatch [] 50).anomalies = [] ∧
      (verify recMatch [] 50).confidence_score = pyRound 50) := by
  decide

/-- Claim C1 (amended): with an empty reference mapping the status is
the string OCR Processed and the recommendation stays Proceed with
verification; the confidence starts at the truncated average and the
anomaly list starts empty, after which the global low-confidence cap
(average below 70) and the no-anomaly boost (average above 80) apply as
usual. -/
theorem verify_empty_mapping (rec : CombinedRecord) (avg : ℚ) :
    verify rec [] avg =
      if avg < 70 then
        ⟨ "OCR Processed", min (pyInt avg) 30, "Proceed with verification.", [lowConfMsg]⟩
      else if 80 < avg then
        ⟨ "OCR Processed", 95, "Proceed with verification.", []⟩
      else
        ⟨ "OCR Processed", pyInt avg, "Proceed with verification.", []⟩ := by
  unfold verify
  rw [matchStage_empty]
  by_cases h : avg < 70
  · rw [applyOverrides_low _ _ h, if_pos h]
    rfl
  · rw [applyOverrides_high _ _ h, if_neg h]
    by_cases h8 : (80 : ℚ) < avg
    · simp [h8]
    · simp [h8]

/-- Claim C2 (confirmed): whenever the average OCR confidence is below
70, the returned anomalies contain the low-confidence message and the
final confidence is at most 30, for every record and every reference
mapping, i.e. after and overriding any floor computed by the match
branch. -/
theorem low_confidence_cap (rec : CombinedRecord) (dict : List (Str × RefRecord))
    (avg : ℚ) (h : avg < 70) :
    lowConfMsg ∈ (verify rec dict avg).anomalies ∧
    (verify rec dict avg).confidence_score ≤ 30 := by
  unfold verify
  rw [applyOverrides_low _ _ h]
  exact ⟨List.mem_append_right _ (List.mem_singleton_self _), min_le_right _ _⟩

/-- Witness for low_confidence_cap at average confidence 50. -/
theorem low_confidence_cap_witness :
    (50 : ℚ) < 70 ∧
    lowConfMsg ∈ (verify recMatch dict0 50).anomalies ∧
    (verify recMatch dict0 50).confidence_score ≤ 30 :=
  ⟨by norm_num, low_confidence_cap recMatch dict0 50 (by norm_num)⟩

/-- Claim C3, counterexample: at average confidence 428/5 = 85.6 the
pre-override confidence of a fully matched record is 85 (the code
truncates the average before taking the maximum with 85), while the
claimed formula max(round(avgConfidence), 85) gives 86. -/
theorem matched_record_valid_cex :
    (matchStage recMatch dict0 (mkRat 428 5)).confidence_score = 85 ∧
    max (pyRound (mkRat 428 5)) 85 = 86 := by
  decide

/-- Claim C3 (amended): when the normalized name is found and both
normalized fields equal the stored reference values, the match branch
returns status Valid with confidence max(truncate(avgConfidence), 85)
before the final overrides, recommendation Proceed with verification,
and no anomalies. -/
theorem matched_record_valid (rec : CombinedRecord) (dict : List (Str × RefRecord))
    (avg : ℚ) (db : RefRecord) (hd : dict ≠ [])
    (hl : lookupRef dict (normalize_text rec.name) = some db)
    (hr : normalize_text rec.roll_no = db.roll_no)
    (hc : normalize_text rec.cert_id = db.cert_id) :
    matchStage rec dict avg =
      ⟨ "Valid", max (pyInt avg) 85, "Proceed with verification.", []⟩ :=
  matchStage_found rec dict avg db hd hl hr hc

/-- Witness for matched_record_valid at the decision-table scenario. -/
theorem matched_record_valid_witness :
    dict0 ≠ [] ∧
    lookupRef dict0 (normalize_text recMatch.name) = some db0 ∧
    normalize_text recMatch.roll_no = db0.roll_no ∧
    normalize_text recMatch.cert_id = db0.cert_id ∧
    matchStage recMatch dict0 90 =
      ⟨ "Valid", max (pyInt 90) 85, "Proceed with verification.", []⟩ :=
  ⟨by decide, by decide, by decide, by decide,
    matched_record_valid recMatch dict0 90 db0 (by decide) (by decide)
      (by decide) (by decide)⟩

/-- Claim C4, counterexample: at average confidence 298/5 = 59.6 the
match-branch confidence of a mismatching record is 59 (truncation),
while the claimed formula min(round(avgConfidence), 60) gives 60. -/
theorem mismatch_caution_cex :
    (matchStage recMismatch dict0 (mkRat 298 5)).confidence_score = 59 ∧
    min (pyRound (mkRat 298 5)) 60 = 60 := by
  decide

/-- Claim C4 (amended): when the normalized name is found but a field
differs from the stored reference value, the match branch returns status
Caution with confidence min(truncate(avgConfidence), 60) before the
final overrides, the mismatch anomaly, and recommendation Manual review
recommended. -/
theorem mismatch_caution (rec : CombinedRecord) (dict : List (Str × RefRecord))
    (avg : ℚ) (db : RefRecord) (hd : dict ≠ [])
    (hl : lookupRef dict (normalize_text rec.name) = some db)
    (hm : normalize_text rec.roll_no ≠ db.roll_no ∨ normalize_text rec.cert_id ≠ db.cert_id) :
    matchStage rec dict avg =
      ⟨ "Caution", min (pyInt avg) 60, "Manual review recommended.",
        ["Mismatch in Roll No or Certificate ID"]⟩ :=
  matchStage_mismatch rec dict avg db hd hl hm

/-- Witness for mismatch_caution at the decision-table scenario. -/
theorem mismatch_caution_witness :
    dict0 ≠ [] ∧
    lookupRef dict0 (normalize_text recMismatch.name) = some db0 ∧
    normalize_text recMismatch.cert_id ≠ db0.cert_id ∧
    matchStage recMismatch dict0 90 =
      ⟨ "Caution", min (pyInt 90) 60, "Manual review recommended.",
        ["Mismatch in Roll No or Certificate ID"]⟩ :=
  ⟨by decide, by decide, by decide,
    mismatch_caution recMismatch dict0 90 db0 (by decide) (by decide)
      (Or.inr (by decide))⟩

/-- Claim C5, counterexample: at average confidence 148/5 = 29.6 the
match-branch confidence of an unknown name is 29 (truncation), while
the claimed formula min(round(avgConfidence), 30) gives 30. -/
theorem name_not_found_forged_cex :
    (matchStage recJane dict0 (mkRat 148 5)).confidence_score = 29 ∧
    min (pyRound (mkRat 148 5)) 30 = 30 := by
  decide

/-- Claim C5 (amended): when the normalized name is not a key of a
non-empty mapping, the match branch returns status Forged with
confidence min(truncate(avgConfidence), 30) before the final overrides,
the name-not-found anomaly, and recommendation Document appears
invalid. -/
theorem name_not_found_forged (rec : CombinedRecord) (dict : List (Str × RefRecord))
    (avg : ℚ) (hd : dict ≠ [])
    (hl : lookupRef dict (normalize_text rec.name) = none) :
    matchStage rec dict avg =
      ⟨ "Forged", min (pyInt avg) 30, "Document appears invalid.",
        ["Name not found in records"]⟩ :=
  matchStage_not_found rec dict avg hd hl

/-- Witness for name_not_found_forged at the decision-table scenario. -/
theorem name_not_found_forged_witness :
    dict0 ≠ [] ∧
    lookupRef dict0 (normalize_text recJane.name) = none ∧
    matchStage recJane dict0 90 =
      ⟨ "Forged", min (pyInt 90) 30, "Document appears invalid.",
        ["Name not found in records"]⟩ :=
  ⟨by decide, by decide,
    name_not_found_forged recJane dict0 90 (by decide) (by decide)⟩

/-- Claim C6 (confirmed): if the match branch collected no anomalies and
the average confidence exceeds 80, the final confidence is 95; and the
boost and the low-confidence cap can never both fire, since an average
below 70 is never above 80. -/
theorem no_anomaly_boost (rec : CombinedRecord) (dict : List (Str × RefRecord))
    (avg : ℚ) :
    ((matchStage rec dict avg).anomalies = [] → 80 < avg →
      (verify rec dict avg).confidence_score = 95) ∧
    (avg < 70 → ¬(80 < avg)) := by
  constructor
  · intro ha h8
    have h70 : ¬(avg < 70) := by linarith
    unfold verify
    rw [applyOverrides_high _ _ h70, if_pos ⟨ha, h8⟩]
  · intro h7 h8
    linarith

/-- Witness for no_anomaly_boost at the decision-table scenario with
average confidence 90. -/
theorem no_anomaly_boost_witness :
    (matchStage recMatch dict0 90).anomalies = [] ∧ (80 : ℚ) < 90 ∧
    (verify recMatch dict0 90).confidence_score = 95 :=
  ⟨by decide, by norm_num,
    (no_anomaly_boost recMatch dict0 90).1 (by decide) (by norm_num)⟩

/-- Claim C7, counterexample: the underscore is not alphanumeric yet
survives normalization, so normalize is not lower-casing followed by
removing every non-alphanumeric character. -/
theorem normalize_claim_cex :
    '_' ∈ normalize_text "a_b".toList ∧
    '_'.isAlphanum = false ∧
    normalize_text "a_b".toList ≠ specNormalize "a_b".toList := by
  decide

/-- Claim C7 (amended): normalize equals lower-casing followed by
removing every character that is neither alphanumeric nor an underscore
(the regex word class); the source's leading strip is redundant because
the removed characters are whitespace. -/
theorem normalize_keeps_word_chars (s : Str) :
    normalize_text s = (s.map Char.toLower).filter isWordChar := by
  unfold normalize_text
  exact filter_pyStrip _

/-- Claim C8 (confirmed): for each of the three tracked fields the
combiner keeps the first non-empty page value in document order, and in
particular pages with names empty, A, B combine to name A. -/
theorem combine_first_nonempty (pages : List OcrPage) :
    (combinePages pages).name =
        firstNonEmpty (pages.map (fun p => p.extracted.name)) ∧
    (combinePages pages).roll_no =
        firstNonEmpty (pages.map (fun p => p.extracted.roll_no)) ∧
    (combinePages pages).cert_id =
        firstNonEmpty (pages.map (fun p => p.extracted.cert_id)) ∧
    (combinePages
        [⟨ ⟨ [], [], []⟩, []⟩, ⟨ ⟨ "A".toList, [], []⟩, []⟩,
          ⟨ ⟨ "B".toList, [], []⟩, []⟩]).name = "A".toList := by
  obtain ⟨h1, h2, h3⟩ := combine_foldl_fields pages ⟨ [], [], [], []⟩
  refine ⟨?_, ?_, ?_, by decide⟩
  · rw [combinePages, h1, pickFirst_foldl]; rfl
  · rw [combinePages, h2, pickFirst_foldl]; rfl
  · rw [combinePages, h3, pickFirst_foldl]; rfl

/-- Claim C9 (confirmed): a field whose pattern finds no match in the
raw text is the empty string; extraction is a total function, so the
absence of a match is never an error. -/
theorem extract_no_match_empty (text : Str) :
    (searchName text = none → (extract_fields text).name = []) ∧
    (searchRoll text = none → (extract_fields text).roll_no = []) ∧
    (searchCert text = none → (extract_fields text).cert_id = []) := by
  refine ⟨fun h => ?_, fun h => ?_, fun h => ?_⟩ <;> simp [extract_fields, h]

/-- Witness for extract_no_match_empty on text containing no label. -/
theorem extract_no_match_empty_witness :
    searchName "hello world".toList = none ∧
    (extract_fields "hello world".toList).name = [] ∧
    searchRoll "hello world".toList = none ∧
    (extract_fields "hello world".toList).roll_no = [] ∧
    searchCert "hello world".toList = none ∧
    (extract_fields "hello world".toList).cert_id = [] :=
  ⟨by decide, (extract_no_match_empty "hello world".toList).1 (by decide),
    by decide, (extract_no_match_empty "hello world".toList).2.1 (by decide),
    by decide, (extract_no_match_empty "hello world".toList).2.2 (by decide)⟩

/-- Claim C10 (confirmed): with a non-empty mapping whose keys are all
non-empty, a document whose combined name is empty normalizes to the
empty name, misses every key, and is classified Forged with the
name-not-found anomaly rather than any distinct extraction-failure
outcome. -/
theorem empty_name_forged (rec : CombinedRecord) (dict : List (Str × RefRecord))
    (avg : ℚ) (hd : dict ≠ []) (hk : ∀ p ∈ dict, p.1 ≠ []) (hn : rec.name = []) :
    (verify rec dict avg).status = "Forged" ∧
    "Name not found in records" ∈ (verify rec dict avg).anomalies := by
  have hnorm : normalize_text rec.name = [] := by rw [hn]; rfl
  have hfind : dict.find? (fun p => p.1 == ([] : Str)) = none := by
    rw [List.find?_eq_none]
    intro p hp
    simpa using hk p hp
  have hlook : lookupRef dict (normalize_text rec.name) = none := by
    rw [hnorm]
    unfold lookupRef
    rw [hfind]
    rfl
  have hm := matchStage_not_found rec dict avg hd hlook
  unfold verify
  rw [hm]
  constructor
  · rw [applyOverrides_status]
  · exact applyOverrides_mem _ _ _ (List.mem_singleton_self _)

/-- Witness for empty_name_forged: the all-empty record against the
decision-table mapping. -/
theorem empty_name_forged_witness :
    dict0 ≠ [] ∧ (∀ p ∈ dict0, p.1 ≠ []) ∧ recNoName.name = [] ∧
    (verify recNoName dict0 90).status = "Forged" ∧
    "Name not found in records" ∈ (verify recNoName dict0 90).anomalies :=
  ⟨by decide, by decide, rfl,
    (empty_name_forged recNoName dict0 90 (by decide) (by decide) rfl).1,
    (empty_name_forged recNoName dict0 90 (by decide) (by decide) rfl).2⟩
